import Mathlib

/-!
Verification of the ogem repository's peripheral utilities against their
natural-language specification: the pricing scraper (`scripts/scrape_pricing.py`),
the provider-variant generators (`provider/vertex/vertex_generator.py`,
`provider/vclaude/vclaude_generator.py`) and the Python client SDK
(`sdk/python/ogem/{client,resources,types,exceptions}.py`).

The Python code is shallowly embedded: pure functions become Lean functions,
Python dictionaries become association lists over a `PyVal` value type,
exceptions become `Except`/tagged results, the mutable builder objects are
modelled by an explicit heap of dictionaries, and the network/filesystem
boundaries become explicit environment records (what a fetch returned) or
returned request descriptors (what would be sent).
-/

namespace Ogem

/-- Python values, as far as this code manipulates them: strings, ints,
floats (modelled exactly as rationals: every price literal in the sources is
a finite decimal and no arithmetic is performed on them), booleans, `None`,
lists and string-keyed dicts. -/
inductive PyVal where
  | str : String → PyVal
  | int : Int → PyVal
  | float : ℚ → PyVal
  | bool : Bool → PyVal
  | none : PyVal
  | list : List PyVal → PyVal
  | dict : List (String × PyVal) → PyVal

/-- Python dictionary lookup `d.get(k)`: the value of the first binding of `k`. -/
def dictGet (d : List (String × PyVal)) (k : String) : Option PyVal :=
  (d.find? (fun p => p.1 == k)).map (fun p => p.2)

/-- Python dictionary update `d[k] = v`: replaces the value in place when the
key is present, otherwise appends the binding (insertion order preserved). -/
def dictSet (d : List (String × PyVal)) (k : String) (v : PyVal) :
    List (String × PyVal) :=
  if d.any (fun p => p.1 == k) then
    d.map (fun p => if p.1 == k then (k, v) else p)
  else
    d ++ [(k, v)]

/-- Python truthiness for the values this code tests with `if not x:` /
`if x:`. -/
def pyTruthy : PyVal → Bool
  | .str s => !(s == "")
  | .int n => !(n == 0)
  | .float q => !(q == 0)
  | .bool b => b
  | .none => false
  | .list xs => !xs.isEmpty
  | .dict d => !d.isEmpty

/-- The characters Python's `str.strip()` and `\s` treat as whitespace
(ASCII range). -/
def pyWs (c : Char) : Bool :=
  c == ' ' || c == '\t' || c == '\n' || c == '\x0d' || c == '\x0b' || c == '\x0c'

/-- Python `str.strip()` on a character list: drop whitespace from both ends. -/
def pyStripList (l : List Char) : List Char :=
  ((l.dropWhile pyWs).reverse.dropWhile pyWs).reverse

/-- Python `str.strip()`. -/
def pyStrip (s : String) : String :=
  String.mk (pyStripList s.data)

/-- Python `str.lower()` (the strings involved are ASCII). -/
def strLower (s : String) : String :=
  String.mk (s.data.map Char.toLower)

/-- Whether `needle` is a prefix of `hay` (over character lists). -/
def prefixOfL : List Char → List Char → Bool
  | [], _ => true
  | _ :: _, [] => false
  | a :: as, b :: bs => a == b && prefixOfL as bs

/-- Python `needle in hay` substring containment on character lists
(the empty needle is contained in everything, as in Python). -/
def containsSub (needle : List Char) : List Char → Bool
  | [] => prefixOfL needle []
  | c :: t => prefixOfL needle (c :: t) || containsSub needle t

/-- Python `s.startswith(pre)`. -/
def pyStartsWith (s pre : String) : Bool :=
  prefixOfL pre.data s.data

/-- Python `s[n:]`. -/
def pyDrop (s : String) (n : ℕ) : String :=
  String.mk (s.data.drop n)

/-- Python `s.replace(pat, rep)`: replace all non-overlapping occurrences of
`pat`, scanning left to right.  Structured with explicit fuel (one unit per
input character) so that it is structurally recursive; with `fuel ≥ l.length`
and a non-empty pattern the fuel never runs out.  No call site in this code
base uses an empty pattern (for which Python would interleave `rep` between
characters; this model leaves the input unchanged there). -/
def replaceFuel (pat rep : List Char) : ℕ → List Char → List Char
  | 0, l => l
  | _ + 1, [] => []
  | n + 1, c :: t =>
      if !pat.isEmpty && prefixOfL pat (c :: t) then
        rep ++ replaceFuel pat rep n ((c :: t).drop pat.length)
      else
        c :: replaceFuel pat rep n t

/-- Python `s.replace(pat, rep)` on strings. -/
def pyReplace (s pat rep : String) : String :=
  String.mk (replaceFuel pat.data rep.data s.data.length s.data)

end Ogem

namespace Ogem.Scraper

/-!
Embedding of `scripts/scrape_pricing.py`.
-/

/-- Digit span: the leading run of decimal digits and the remainder. -/
def takeDigits (l : List Char) : List Char × List Char :=
  (l.takeWhile Char.isDigit, l.dropWhile Char.isDigit)

/-- The regex fragment `(\d+\.?\d*)` matched greedily at the head of the
input: one or more digits, an optional dot, then any further digits.
Returns the captured characters and the rest of the input.  Greedy matching
is equivalent to full backtracking here because everything that can follow
the capture in the five patterns of `extract_price` (whitespace, a letter,
`/`, or end of input) is disjoint from digits and the dot. -/
def matchNumber (l : List Char) : Option (List Char × List Char) :=
  let (d1, r1) := takeDigits l
  if d1.isEmpty then Option.none
  else
    match r1 with
    | '.' :: r2 =>
        let (d2, r3) := takeDigits r2
        some (d1 ++ '.' :: d2, r3)
    | _ => some (d1, r1)

/-- Match a literal string (already lowercased) at the head of the input,
returning the remainder. -/
def matchLit (lit : List Char) (l : List Char) : Option (List Char) :=
  if prefixOfL lit l then some (l.drop lit.length) else Option.none

/-- The regex fragment `\s*`: drop leading whitespace. -/
def skipWs (l : List Char) : List Char :=
  l.dropWhile pyWs

/-- The regex fragment `\s+`: require at least one whitespace character. -/
def matchWs1 (l : List Char) : Option (List Char) :=
  match l with
  | c :: t => if pyWs c then some (skipWs t) else Option.none
  | [] => Option.none

/-- Pattern `(\d+\.?\d*)\s*per\s+1M` (case-insensitive: input lowercased)
matched at the head of the input; returns the captured number characters. -/
def pat1 (l : List Char) : Option (List Char) := do
  let (num, r1) ← matchNumber l
  let r2 ← matchLit "per".data (skipWs r1)
  let r3 ← matchWs1 r2
  let _ ← matchLit "1m".data r3
  pure num

/-- Pattern `(\d+\.?\d*)\s*\/\s*1M` matched at the head of the input. -/
def pat2 (l : List Char) : Option (List Char) := do
  let (num, r1) ← matchNumber l
  let r2 ← matchLit "/".data (skipWs r1)
  let _ ← matchLit "1m".data (skipWs r2)
  pure num

/-- Pattern `(\d+\.?\d*)\s*per\s+million` matched at the head of the input. -/
def pat3 (l : List Char) : Option (List Char) := do
  let (num, r1) ← matchNumber l
  let r2 ← matchLit "per".data (skipWs r1)
  let r3 ← matchWs1 r2
  let _ ← matchLit "million".data r3
  pure num

/-- Pattern `(\d+\.?\d*)\s*million` matched at the head of the input. -/
def pat4 (l : List Char) : Option (List Char) := do
  let (num, r1) ← matchNumber l
  let _ ← matchLit "million".data (skipWs r1)
  pure num

/-- Model of `re.search`: try the head-anchored matcher at each start position from
the left, returning the first (leftmost) successful capture. -/
def searchPat (pat : List Char → Option (List Char)) :
    List Char → Option (List Char)
  | [] => pat []
  | c :: t =>
      match pat (c :: t) with
      | some g => some g
      | Option.none => searchPat pat t

/-- Pattern `^(\d+\.?\d*)$`: anchored at both ends (`$` also matches just
before a single trailing newline, as in Python without `re.MULTILINE`). -/
def pat5 (l : List Char) : Option (List Char) :=
  match matchNumber l with
  | some (num, rest) =>
      if rest.isEmpty || rest == ['\n'] then some num else Option.none
  | Option.none => Option.none

/-- Numeric value of a digit list. -/
def digitsVal (l : List Char) : ℕ :=
  l.foldl (fun acc c => acc * 10 + (c.toNat - '0'.toNat)) 0

/-- Python `float(s)` on a capture of `(\d+\.?\d*)`, exactly: integer part
plus decimal fraction.  (Such a capture is always a valid float literal, so
the `ValueError` branch of the source is unreachable.) -/
def parseNum (l : List Char) : ℚ :=
  let (ip, rest) := takeDigits l
  match rest with
  | '.' :: fr => (digitsVal ip : ℚ) + (digitsVal fr : ℚ) / ((10 : ℚ) ^ fr.length)
  | _ => (digitsVal ip : ℚ)

/-- The normalization `extract_price` performs before pattern matching:
remove `,` and `$`, strip whitespace, lowercase (the patterns are applied
with `re.IGNORECASE`). -/
def normalizePrice (text : String) : List Char :=
  (pyStripList ((pyReplace (pyReplace text "," "") "$" "").data)).map Char.toLower

/-- The capture of the first of the five price regexes of
`PricingScraper.extract_price` that matches the normalized input (patterns
tried in source order, each searched left to right). -/
def extract_price_capture (text : String) : Option (List Char) :=
  if text == "" then Option.none
  else
    let l := normalizePrice text
    match searchPat pat1 l with
    | some g => some g
    | Option.none =>
      match searchPat pat2 l with
      | some g => some g
      | Option.none =>
        match searchPat pat3 l with
        | some g => some g
        | Option.none =>
          match searchPat pat4 l with
          | some g => some g
          | Option.none => pat5 l

/-- Embedding of `PricingScraper.extract_price`: returns `None` for the empty string,
otherwise normalizes the text and tries the five price regexes in order,
returning the first captured number parsed as a float (`float` on a
`(\d+\.?\d*)` capture always succeeds, so the `ValueError` branch of the
source is unreachable), else `None`.  Total: it never raises. -/
def extract_price (text : String) : Option ℚ :=
  (extract_price_capture text).map parseNum

/-- One model's entry in a scraper's `models` mapping:
`{"input_price_per_1m": .., "output_price_per_1m": .., ["reasoning_price_per_1m": ..,] "source": ..}`. -/
structure PriceEntry where
  input_price_per_1m : ℚ
  output_price_per_1m : ℚ
  reasoning_price_per_1m : Option ℚ
  source : String

/-- A `models` mapping: model identifier → price entry, in insertion order. -/
abbrev ModelTable := List (String × PriceEntry)

/-- A successful scrape result:
`{"provider": .., "url": .., "scraped_at": .., "models": .., ["note": ..]}`. -/
structure ScrapeResult where
  provider : String
  url : String
  scraped_at : String
  models : ModelTable
  note : Option String

/-- What a provider's `scrape()` returns: either a result dict with a
`models` mapping, or an error dict `{"error": msg}` with no models at all. -/
inductive ScrapeOutput where
  | ok : ScrapeResult → ScrapeOutput
  | err : String → ScrapeOutput

/-- Whether a scrape output carries a non-empty `models` mapping. -/
def hasNonEmptyModels : ScrapeOutput → Bool
  | .ok r => !r.models.isEmpty
  | .err _ => false

/-- Embedding of `OpenAIPricingScraper._get_fallback_pricing`: the hardcoded OpenAI
fallback table ("Updated as of June 2025"). -/
def openai_fallback_models : ModelTable :=
  [ ("gpt-4o", ⟨2.5, 10.0, Option.none, "openai_fallback"⟩),
    ("gpt-4o-mini", ⟨0.15, 0.6, Option.none, "openai_fallback"⟩),
    ("gpt-4-turbo", ⟨10.0, 30.0, Option.none, "openai_fallback"⟩),
    ("gpt-4", ⟨30.0, 60.0, Option.none, "openai_fallback"⟩),
    ("gpt-3.5-turbo", ⟨0.5, 1.5, Option.none, "openai_fallback"⟩),
    ("o1-preview", ⟨15.0, 60.0, Option.none, "openai_fallback"⟩),
    ("o1-mini", ⟨3.0, 12.0, Option.none, "openai_fallback"⟩) ]

/-- The environment the OpenAI scraper runs in: whether Playwright is
importable, and what each of the two real fetch strategies would produce —
either a parsed model table (possibly empty, when the page yielded no
recognizable pricing rows) or a raised exception's message. -/
structure OpenAIEnv where
  playwright_available : Bool
  playwright_models : Except String ModelTable
  enhanced_models : Except String ModelTable

/-- The three methods `OpenAIPricingScraper.scrape` tries in order:
`_scrape_with_playwright` (raises `ImportError` when Playwright is
unavailable), `_scrape_with_enhanced_headers`, `_get_fallback_pricing`
(always succeeds with the non-empty fallback table). -/
def openai_methods (env : OpenAIEnv) : List (Except String ModelTable) :=
  [ (if env.playwright_available then env.playwright_models
     else .error "Playwright not available"),
    env.enhanced_models,
    .ok openai_fallback_models ]

/-- The method loop of `OpenAIPricingScraper.scrape`: try each method; a
method that raises updates `last_error` and the loop continues; a method
that returns an empty table also continues (the `if models:` check);
the first non-empty table wins. -/
def scrape_loop : List (Except String ModelTable) → Option String →
    Option ModelTable × Option String
  | [], lastErr => (Option.none, lastErr)
  | m :: rest, lastErr =>
      match m with
      | .ok models => if models.isEmpty then scrape_loop rest lastErr else (some models, lastErr)
      | .error e => scrape_loop rest (some e)

def openai_url : String := "https://openai.com/api/pricing/"

/-- Embedding of `OpenAIPricingScraper.scrape`: runs the waterfall; if no method produced
a non-empty table, returns the fallback table with a note recording the last
error. -/
def openai_scrape (env : OpenAIEnv) (now : String) : ScrapeOutput :=
  match scrape_loop (openai_methods env) Option.none with
  | (some models, _) =>
      .ok { provider := "openai", url := openai_url, scraped_at := now,
            models := models, note := Option.none }
  | (Option.none, lastErr) =>
      .ok { provider := "openai", url := openai_url, scraped_at := now,
            models := openai_fallback_models,
            note := some ("All scraping methods failed, using fallback data. Last error: "
                          ++ lastErr.getD "None") }

/-- The environment of the fetch-then-hardcode scrapers (Anthropic, Google
Cloud, Azure): `page = none` models `get_page` returning `None` (request
error), `page = some s` a successfully fetched page with content `s`. -/
structure FetchEnv where
  page : Option String

/-- The hardcoded Claude table of `AnthropicPricingScraper`. -/
def anthropic_known_models : ModelTable :=
  [ ("claude-3-5-sonnet", ⟨3.0, 15.0, Option.none, "anthropic_api"⟩),
    ("claude-3-5-haiku", ⟨0.8, 4.0, Option.none, "anthropic_api"⟩),
    ("claude-3-opus", ⟨15.0, 75.0, Option.none, "anthropic_api"⟩),
    ("claude-3-sonnet", ⟨3.0, 15.0, Option.none, "anthropic_api"⟩),
    ("claude-3-haiku", ⟨0.25, 1.25, Option.none, "anthropic_api"⟩) ]

def anthropic_url : String := "https://www.anthropic.com/pricing"

/-- Embedding of `AnthropicPricingScraper.scrape`: on a failed fetch returns the error
dict; on a successful fetch the page content is never consulted (the source
binds a `pricing_sections` soup query it never uses) and the result is
always the hardcoded table. -/
def anthropic_scrape (env : FetchEnv) (now : String) : ScrapeOutput :=
  match env.page with
  | Option.none => .err "Failed to fetch Anthropic pricing page"
  | some _ =>
      .ok { provider := "anthropic", url := anthropic_url, scraped_at := now,
            models := anthropic_known_models, note := Option.none }

/-- The hardcoded Gemini table of `GoogleCloudPricingScraper` (the three 2.5
models carry a reasoning price; the 1.5 models do not). -/
def google_known_models : ModelTable :=
  [ ("gemini-2.5-pro", ⟨1.25, 5.0, some 10.0, "vertex_ai"⟩),
    ("gemini-2.5-flash", ⟨0.075, 0.3, some 1.5, "vertex_ai"⟩),
    ("gemini-2.5-flash-8b", ⟨0.0375, 0.15, some 0.75, "vertex_ai"⟩),
    ("gemini-1.5-pro", ⟨1.25, 5.0, Option.none, "vertex_ai"⟩),
    ("gemini-1.5-flash", ⟨0.075, 0.3, Option.none, "vertex_ai"⟩) ]

def google_url : String := "https://cloud.google.com/vertex-ai/generative-ai/pricing"

/-- Embedding of `GoogleCloudPricingScraper.scrape`: same shape as the Anthropic scraper. -/
def google_scrape (env : FetchEnv) (now : String) : ScrapeOutput :=
  match env.page with
  | Option.none => .err "Failed to fetch Google Cloud pricing page"
  | some _ =>
      .ok { provider := "google_cloud", url := google_url, scraped_at := now,
            models := google_known_models, note := Option.none }

/-- The hardcoded table of `AzureOpenAIPricingScraper`. -/
def azure_known_models : ModelTable :=
  [ ("azure-gpt-4o", ⟨5.0, 15.0, Option.none, "azure_openai"⟩),
    ("azure-gpt-4o-mini", ⟨0.165, 0.66, Option.none, "azure_openai"⟩),
    ("azure-gpt-4-turbo", ⟨10.0, 30.0, Option.none, "azure_openai"⟩),
    ("azure-gpt-4", ⟨30.0, 60.0, Option.none, "azure_openai"⟩),
    ("azure-gpt-35-turbo", ⟨0.5, 1.5, Option.none, "azure_openai"⟩) ]

def azure_url : String :=
  "https://azure.microsoft.com/en-us/pricing/details/cognitive-services/openai-service/"

/-- Embedding of `AzureOpenAIPricingScraper.scrape`: same shape as the Anthropic scraper. -/
def azure_scrape (env : FetchEnv) (now : String) : ScrapeOutput :=
  match env.page with
  | Option.none => .err "Failed to fetch Azure OpenAI pricing page"
  | some _ =>
      .ok { provider := "azure", url := azure_url, scraped_at := now,
            models := azure_known_models, note := Option.none }

/-- The environments of the four registered scrapers of
`PricingAggregator.__init__`. -/
structure AggEnv where
  openai : OpenAIEnv
  anthropic : FetchEnv
  google : FetchEnv
  azure : FetchEnv

/-- Dispatch of `PricingAggregator.scrape_all` to a single provider's
scraper; `none` for a provider name not in the registry (the source prints
"Unknown provider" and records nothing). -/
def scrape_one (env : AggEnv) (now : String) (p : String) : Option ScrapeOutput :=
  if p = "openai" then some (openai_scrape env.openai now)
  else if p = "anthropic" then some (anthropic_scrape env.anthropic now)
  else if p = "google" then some (google_scrape env.google now)
  else if p = "azure" then some (azure_scrape env.azure now)
  else Option.none

/-- Embedding of `PricingAggregator.scrape_all`: runs the requested providers in order
and collects one slot per known provider.  (The `except` arm that records
`{"error": str(e)}` is unreachable in this model because every embedded
scraper is total.) -/
def scrape_all (env : AggEnv) (now : String) (providers : List String) :
    List (String × ScrapeOutput) :=
  providers.filterMap (fun p => (scrape_one env now p).map (fun r => (p, r)))

end Ogem.Scraper

namespace Ogem.SDK

open Ogem

/-!
Embedding of `sdk/python/ogem/exceptions.py` and the response handling of
`sdk/python/ogem/client.py` (`Client._handle_response` and
`AsyncClient._handle_response` are textually identical; one embedding covers
both).
-/

/-- The SDK's exception taxonomy, one constructor per class, each carrying
the attributes its `__init__` stores.  Messages are `PyVal` because the
handlers pass through whatever JSON value sat under `"message"`.
`otherExc`, `jsonDecodeError` and `attributeError` stand for Python
exceptions from outside the SDK hierarchy (`is_retryable_error` accepts any
`Exception`; `response.json()` on a non-JSON 200 body raises
`json.JSONDecodeError`; `.get`/`.lower()` on a non-dict/non-str error value
raises `AttributeError`). -/
inductive Exc where
  | ogemError (message : PyVal)
  | apiError (message : PyVal) (status_code : Option ℕ) (error_type : Option PyVal)
      (error_code : Option PyVal) (details : PyVal)
  | authenticationError (message : PyVal)
  | rateLimitError (message : PyVal) (retry_after : Option ℕ) (limit_type : Option String)
  | tenantError (message : PyVal) (tenant_id : Option String)
  | validationError (message : PyVal) (field_errors : Option PyVal)
  | modelError (message : PyVal) (model_id : Option String)
  | providerError (message : PyVal) (provider : Option String)
  | cacheError (message : PyVal)
  | streamError (message : PyVal)
  | timeoutError (message : PyVal)
  | connectionError (message : PyVal)
  | configurationError (message : PyVal)
  | otherExc
  | jsonDecodeError
  | attributeError

/-- Model of `isinstance(e, APIError)`: `APIError` and its six subclasses. -/
def isinstanceAPIError : Exc → Bool
  | .apiError .. | .authenticationError .. | .rateLimitError .. | .tenantError ..
  | .validationError .. | .modelError .. | .providerError .. => true
  | _ => false

/-- Model of `isinstance(e, RateLimitError)`. -/
def isinstanceRateLimit : Exc → Bool
  | .rateLimitError .. => true
  | _ => false

/-- Model of `isinstance(e, TimeoutError)` (the SDK's `TimeoutError`). -/
def isinstanceTimeout : Exc → Bool
  | .timeoutError .. => true
  | _ => false

/-- Model of `isinstance(e, ConnectionError)` (the SDK's `ConnectionError`). -/
def isinstanceConnection : Exc → Bool
  | .connectionError .. => true
  | _ => false

/-- The `status_code` attribute an `APIError` instance ends up with: the
subclasses pin it in their `__init__` (authentication → 401, rate limit →
429, tenant → 403, validation → 422) while `ModelError`/`ProviderError`
leave it `None`; non-API exceptions have no such attribute. -/
def statusCodeOf : Exc → Option ℕ
  | .apiError _ sc _ _ _ => sc
  | .authenticationError _ => some 401
  | .rateLimitError .. => some 429
  | .tenantError .. => some 403
  | .validationError .. => some 422
  | _ => Option.none

/-- Embedding of `exceptions.is_retryable_error`: rate-limit errors, API errors with a
present status code ≥ 500, and the SDK's timeout/connection errors are
retryable; everything else is not. -/
def is_retryable_error (e : Exc) : Bool :=
  if isinstanceRateLimit e then true
  else if isinstanceAPIError e then
    match statusCodeOf e with
    | some c => decide (500 ≤ c)
    | Option.none => false
  else if isinstanceTimeout e || isinstanceConnection e then true
  else false

/-- An `httpx.Response` as far as `_handle_response` inspects it: the status
code, the parsed JSON body (`none` when `.json()` would raise), and the raw
text used by the error-body fallback. -/
structure HttpResponse where
  status_code : ℕ
  json_body : Option PyVal
  text : String

/-- The fallback dict `{"message": response.text or f"HTTP {status}"}` that
`_parse_error_response` builds when reading the body raises. -/
def errFallback (r : HttpResponse) : PyVal :=
  .dict [("message", .str (if r.text == "" then "HTTP " ++ toString r.status_code else r.text))]

/-- Embedding of `Client._parse_error_response` / `AsyncClient._parse_error_response`:
parse the body; unwrap a top-level `"error"` field when the body is a dict;
any exception inside (non-JSON body, `"error" in` on a non-container,
indexing a string/list with `"error"`) is swallowed by the bare `except:`
into the fallback message dict.  A list body without a `"error"` element,
or a string body not containing `"error"`, is returned as is. -/
def parse_error_response (r : HttpResponse) : PyVal :=
  match r.json_body with
  | Option.none => errFallback r
  | some (PyVal.dict fields) =>
      match dictGet fields "error" with
      | some v => v
      | Option.none => PyVal.dict fields
  | some (PyVal.str s) =>
      if containsSub "error".data s.data then errFallback r else PyVal.str s
  | some (PyVal.list xs) =>
      if xs.any (fun v => match v with | .str s => s == "error" | _ => false) then
        errFallback r
      else PyVal.list xs
  | some _ => errFallback r

/-- Model of `error_data.get(key, default)` as used by `_handle_response`;
on a non-dict `error_data` Python raises `AttributeError`. -/
def errDataGet (ed : PyVal) (k : String) (default : PyVal) : Except Exc PyVal :=
  match ed with
  | .dict fields => .ok ((dictGet fields k).getD default)
  | _ => .error .attributeError

/-- Embedding of `Client._handle_response` / `AsyncClient._handle_response`: 200 returns
the parsed JSON body; 401 raises `AuthenticationError("Invalid API key")`;
403 raises `TenantError` when the parsed error's `type` mentions "tenant"
(case-insensitively) and a generic `APIError` with status 403 otherwise;
422 raises `ValidationError`; 429 raises `RateLimitError`; every other
status raises `APIError` carrying that status code. -/
def handle_response (r : HttpResponse) : Except Exc PyVal :=
  if r.status_code = 200 then
    match r.json_body with
    | some b => .ok b
    | Option.none => .error .jsonDecodeError
  else if r.status_code = 401 then
    .error (.authenticationError (.str "Invalid API key"))
  else if r.status_code = 403 then
    match errDataGet (parse_error_response r) "type" (.str "") with
    | .error e => .error e
    | .ok tyv =>
        match tyv with
        | .str ty =>
            if containsSub "tenant".data (strLower ty).data then
              match errDataGet (parse_error_response r) "message" (.str "Tenant access denied") with
              | .error e => .error e
              | .ok m => .error (.tenantError m Option.none)
            else
              match errDataGet (parse_error_response r) "message" (.str "Access denied") with
              | .error e => .error e
              | .ok m =>
                  .error (.apiError m (some r.status_code)
                    (match parse_error_response r with
                     | .dict fields => dictGet fields "type"
                     | _ => Option.none)
                    Option.none (.dict []))
        | _ => .error .attributeError
  else if r.status_code = 422 then
    match errDataGet (parse_error_response r) "message" (.str "Validation error") with
    | .error e => .error e
    | .ok m => .error (.validationError m Option.none)
  else if r.status_code = 429 then
    match errDataGet (parse_error_response r) "message" (.str "Rate limit exceeded") with
    | .error e => .error e
    | .ok m => .error (.rateLimitError m Option.none Option.none)
  else
    match errDataGet (parse_error_response r) "message"
        (.str ("HTTP " ++ toString r.status_code)) with
    | .error e => .error e
    | .ok m =>
        .error (.apiError m (some r.status_code)
          (match parse_error_response r with
           | .dict fields => dictGet fields "type"
           | _ => Option.none)
          Option.none (.dict []))

/-- The raised exception is the generic `APIError` constructor (not one of
its subclasses) carrying exactly status `c`. -/
def raisesGenericApiWith (c : ℕ) : Except Exc PyVal → Bool
  | .error (.apiError _ sc _ _ _) => sc == some c
  | _ => false

/-- The raised exception is a `TenantError`. -/
def raisesTenant : Except Exc PyVal → Bool
  | .error (.tenantError ..) => true
  | _ => false

/-- The raised exception is an `AuthenticationError`. -/
def raisesAuth : Except Exc PyVal → Bool
  | .error (.authenticationError _) => true
  | _ => false

/-- The raised exception is a `ValidationError`. -/
def raisesValidation : Except Exc PyVal → Bool
  | .error (.validationError ..) => true
  | _ => false

/-- The raised exception is a `RateLimitError`. -/
def raisesRateLimit : Except Exc PyVal → Bool
  | .error (.rateLimitError ..) => true
  | _ => false

/-- The parsed error body is a JSON object (so the `.get` calls of
`_handle_response` do not themselves raise). -/
def errBodyIsDict (r : HttpResponse) : Bool :=
  match parse_error_response r with
  | .dict _ => true
  | _ => false

/-- The parsed error body is a JSON object whose `type` value, when present,
is a string — the shape under which the 403 branch can classify. -/
def wellFormedErrBody (r : HttpResponse) : Bool :=
  match parse_error_response r with
  | .dict fields =>
      match dictGet fields "type" with
      | some (.str _) => true
      | some _ => false
      | Option.none => true
  | _ => false

/-- The error type string of the parsed body mentions "tenant"
(case-insensitively), which is what the 403 branch tests. -/
def tenantMentioned (r : HttpResponse) : Bool :=
  match parse_error_response r with
  | .dict fields =>
      match (dictGet fields "type").getD (.str "") with
      | .str ty => containsSub "tenant".data (strLower ty).data
      | _ => false
  | _ => false

/-- The per-line filter of `Client._handle_stream_response` (after the
initial status check): keep only lines with the `"data: "` prefix, drop the
prefix, stop at the `[DONE]` sentinel without yielding it. -/
def stream_data_lines : List String → List String
  | [] => []
  | l :: ls =>
      if pyStartsWith l "data: " then
        let d := pyDrop l 6
        if pyStrip d == "[DONE]" then [] else d :: stream_data_lines ls
      else
        stream_data_lines ls

/-- The consumer loop of `ChatCompletions._create_stream` over the already
filtered data strings, parameterized by `json.loads` (stdlib, modelled as an
oracle `loads` whose `.error` carries the `JSONDecodeError` text): re-checks
the sentinel, parses each line into a chunk (`_parse_chunk_response`
reconstructs a `ChatCompletionChunk` from exactly the parsed value), and
raises `StreamError` on a line that is not valid JSON.  Returns the chunks
yielded before termination together with the raised error, if any. -/
def create_stream_consume (loads : String → Except String PyVal) :
    List String → List PyVal × Option Exc
  | [] => ([], Option.none)
  | d :: rest =>
      if pyStrip d == "[DONE]" then ([], Option.none)
      else
        match loads d with
        | .ok chunk =>
            let (tail, e) := create_stream_consume loads rest
            (chunk :: tail, e)
        | .error e =>
            ([], some (.streamError (.str ("Failed to parse stream chunk: " ++ e))))

/-- The chunks the streaming chat-completion path produces for a response
body given as raw lines: `_handle_stream_response`'s filter composed with
`_create_stream`'s parse loop. -/
def chat_stream (loads : String → Except String PyVal) (lines : List String) :
    List PyVal × Option Exc :=
  create_stream_consume loads (stream_data_lines lines)

/-- A network request the SDK is about to issue: everything
`Client._make_request` receives. -/
structure RequestCall where
  method : String
  endpoint : String
  json_data : PyVal
  stream : Bool

/-- The outcome of a resource `create` call, stopping at the transport
boundary: either a request descriptor handed to `_make_request` (for the
streaming path, the lazily-created generator that will issue it), or a
locally raised exception — in which case the transport is never invoked. -/
inductive CreateOutcome where
  | call : RequestCall → CreateOutcome
  | streamCall : RequestCall → CreateOutcome
  | raised : Exc → CreateOutcome

/-- The optional scalar arguments of `ChatCompletions.create`, each `none`
when the caller omitted it. -/
structure ChatCreateArgs where
  max_tokens : Option ℤ := Option.none
  temperature : Option ℚ := Option.none
  top_p : Option ℚ := Option.none
  n : Option ℤ := Option.none
  stream : Option Bool := Option.none
  stop : Option PyVal := Option.none
  presence_penalty : Option ℚ := Option.none
  frequency_penalty : Option ℚ := Option.none
  logit_bias : Option PyVal := Option.none
  user : Option String := Option.none
  functions : Option PyVal := Option.none
  function_call : Option PyVal := Option.none
  tools : Option PyVal := Option.none
  tool_choice : Option PyVal := Option.none
  response_format : Option PyVal := Option.none
  seed : Option ℤ := Option.none
  logprobs : Option Bool := Option.none
  top_logprobs : Option ℤ := Option.none
  kwargs : List (String × PyVal) := []

/-- Set a key when the optional argument is present (`if x is not None:
request_data[k] = f x`). -/
def setOpt {α : Type} (d : List (String × PyVal)) (k : String) (v : Option α)
    (f : α → PyVal) : List (String × PyVal) :=
  match v with
  | some x => dictSet d k (f x)
  | Option.none => d

/-- The `request_data` dict `ChatCompletions.create` builds before
validating: required keys, then each present optional argument in source
order (`stop` is wrapped into a one-element list unless it already is a
list), then `request_data.update(kwargs)`. -/
def chat_request_data (model : String) (messages : List PyVal)
    (a : ChatCreateArgs) : List (String × PyVal) :=
  let d := [("model", PyVal.str model), ("messages", PyVal.list messages)]
  let d := setOpt d "max_tokens" a.max_tokens PyVal.int
  let d := setOpt d "temperature" a.temperature PyVal.float
  let d := setOpt d "top_p" a.top_p PyVal.float
  let d := setOpt d "n" a.n PyVal.int
  let d := setOpt d "stream" a.stream PyVal.bool
  let d := setOpt d "stop" a.stop
    (fun v => match v with | PyVal.list xs => PyVal.list xs | other => PyVal.list [other])
  let d := setOpt d "presence_penalty" a.presence_penalty PyVal.float
  let d := setOpt d "frequency_penalty" a.frequency_penalty PyVal.float
  let d := setOpt d "logit_bias" a.logit_bias id
  let d := setOpt d "user" a.user PyVal.str
  let d := setOpt d "functions" a.functions id
  let d := setOpt d "function_call" a.function_call id
  let d := setOpt d "tools" a.tools id
  let d := setOpt d "tool_choice" a.tool_choice id
  let d := setOpt d "response_format" a.response_format id
  let d := setOpt d "seed" a.seed PyVal.int
  let d := setOpt d "logprobs" a.logprobs PyVal.bool
  let d := setOpt d "top_logprobs" a.top_logprobs PyVal.int
  a.kwargs.foldl (fun acc kv => dictSet acc kv.1 kv.2) d

/-- Embedding of `ChatCompletions.create`: builds `request_data`, then validates the
required arguments locally — `model` empty raises
`ValidationError("model is required")`, `messages` empty raises
`ValidationError("messages is required")` — and only past both checks hands
the request to the transport (streaming when `request_data.get("stream",
False)` is truthy). -/
def chat_completions_create (model : String) (messages : List PyVal)
    (a : ChatCreateArgs) : CreateOutcome :=
  let request_data := chat_request_data model messages a
  if model == "" then
    .raised (.validationError (.str "model is required") Option.none)
  else if messages.isEmpty then
    .raised (.validationError (.str "messages is required") Option.none)
  else if pyTruthy ((dictGet request_data "stream").getD (.bool false)) then
    .streamCall ⟨"POST", "/v1/chat/completions", .dict request_data, true⟩
  else
    .call ⟨"POST", "/v1/chat/completions", .dict request_data, false⟩

/-- The optional arguments of `Embeddings.create`. -/
structure EmbeddingCreateArgs where
  encoding_format : Option String := Option.none
  dimensions : Option ℤ := Option.none
  user : Option String := Option.none
  kwargs : List (String × PyVal) := []

/-- Embedding of `Embeddings.create`: builds `request_data`, validates `model` and
`input` locally (`if not input:` is Python truthiness on the string or
list), and only then issues the request. -/
def embeddings_create (model : String) (input : PyVal)
    (a : EmbeddingCreateArgs) : CreateOutcome :=
  let d := [("model", PyVal.str model), ("input", input)]
  let d := setOpt d "encoding_format" a.encoding_format PyVal.str
  let d := setOpt d "dimensions" a.dimensions PyVal.int
  let d := setOpt d "user" a.user PyVal.str
  let request_data := a.kwargs.foldl (fun acc kv => dictSet acc kv.1 kv.2) d
  if model == "" then
    .raised (.validationError (.str "model is required") Option.none)
  else if !pyTruthy input then
    .raised (.validationError (.str "input is required") Option.none)
  else
    .call ⟨"POST", "/v1/embeddings", .dict request_data, false⟩

/-- The outcome is a locally raised `ValidationError` (so no `RequestCall`
descriptor exists: the HTTP transport was never invoked). -/
def raisedLocalValidation : CreateOutcome → Bool
  | .raised (.validationError ..) => true
  | _ => false

end Ogem.SDK

namespace Ogem.Builder

open Ogem

/-!
Embedding of the fluent builders of `sdk/python/ogem/types.py`.  Python-side
aliasing is what the claim is about, so the builder's `self.data` dict lives
in an explicit heap of dictionaries addressed by allocation order; `build()`
copies (`self.data.copy()`) into a fresh address.
-/

/-- A heap of Python dict objects: contents per address, plus the next
fresh address. -/
structure Heap where
  mem : ℕ → List (String × PyVal)
  next : ℕ

def emptyHeap : Heap := ⟨fun _ => [], 0⟩

/-- Allocate a new dict object. -/
def alloc (h : Heap) (d : List (String × PyVal)) : ℕ × Heap :=
  (h.next, ⟨fun a => if a = h.next then d else h.mem a, h.next + 1⟩)

/-- In-place update `obj[k] = v` of the dict at address `addr`. -/
def heapSet (h : Heap) (addr : ℕ) (k : String) (v : PyVal) : Heap :=
  ⟨fun a => if a = addr then dictSet (h.mem a) k v else h.mem a, h.next⟩

/-- A `ChatCompletionRequest` builder object: a reference to its `data`
dict. -/
structure ChatCompletionRequest where
  dataAddr : ℕ

/-- Embedding of `ChatCompletionRequest.__init__`: allocates
`{"model": model, "messages": messages}`. -/
def ChatCompletionRequest.init (model : String) (messages : PyVal) (h : Heap) :
    ChatCompletionRequest × Heap :=
  let (a, h') := alloc h [("model", .str model), ("messages", messages)]
  (⟨a⟩, h')

/-- Embedding of `ChatCompletionRequest.max_tokens`: `self.data["max_tokens"] = value;
return self`. -/
def ChatCompletionRequest.max_tokens (b : ChatCompletionRequest) (value : ℤ)
    (h : Heap) : ChatCompletionRequest × Heap :=
  (b, heapSet h b.dataAddr "max_tokens" (.int value))

/-- Embedding of `ChatCompletionRequest.temperature`: `self.data["temperature"] = value;
return self`. -/
def ChatCompletionRequest.temperature (b : ChatCompletionRequest) (value : ℚ)
    (h : Heap) : ChatCompletionRequest × Heap :=
  (b, heapSet h b.dataAddr "temperature" (.float value))

/-- Every other setter of the builder follows the same shape
`self.data[key] = value'; return self` for its own key (with `stop`
list-wrapping its value first); this is the common form a further setter
call takes on the heap. -/
def ChatCompletionRequest.setField (b : ChatCompletionRequest) (key : String)
    (value : PyVal) (h : Heap) : ChatCompletionRequest × Heap :=
  (b, heapSet h b.dataAddr key value)

/-- Embedding of `ChatCompletionRequest.build`: `return self.data.copy()` — allocates a
fresh dict with the current contents. -/
def ChatCompletionRequest.build (b : ChatCompletionRequest) (h : Heap) :
    ℕ × Heap :=
  alloc h (h.mem b.dataAddr)

end Ogem.Builder

namespace Ogem.Generator

open Ogem

/-!
Embedding of `provider/vertex/vertex_generator.py` and
`provider/vclaude/vclaude_generator.py`.
-/

/-- The "do not edit" banner both generators prepend. -/
def banner : String := "// This file is auto-generated. Do not edit manually.\n\n"

/-- The ordered substitution list of the Vertex generator's
`replace_content` (applied after prepending the banner). -/
def vertex_subs : List (String × String) :=
  [ ("package studio", "package vertex"),
    ("\n\t\"google.golang.org/api/option\"", ""),
    ("\n\n// A unique identifier for the Gemini Studio provider\nconst REGION = \"studio\"", ""),
    ("type Endpoint struct \x7b\n\tclient *genai.Client\n\x7d",
     "type Endpoint struct \x7b\n\tclient *genai.Client\n\tregion string\n\x7d"),
    ("func NewEndpoint(apiKey string) (*Endpoint, error) \x7b",
     "func NewEndpoint(projectId string, region string) (*Endpoint, error) \x7b"),
    ("func NewEndpoint(apiKey string)", "func NewEndpoint(projectId string, region string)"),
    ("&genai.ClientConfig\x7b\n\t\tAPIKey: apiKey,\n\t\tBackend: genai.BackendGeminiAPI,\n\t\x7d",
     "&genai.ClientConfig\x7b\n\t\tProject: projectId,\n\t\tLocation: region,\n\t\tBackend: genai.BackendVertexAI,\n\t\x7d"),
    ("return &Endpoint\x7bclient: client\x7d, nil",
     "return &Endpoint\x7bclient: client, region: region\x7d, nil"),
    ("return \"studio\"", "return \"vertex\""),
    ("func (ep *Endpoint) Region() string \x7b\n\treturn REGION\n\x7d",
     "func (ep *Endpoint) Region() string \x7b\n\treturn ep.region\n\x7d") ]

/-- The ordered substitution list of the VClaude generator's
`replace_content`. -/
def vclaude_subs : List (String × String) :=
  [ ("package claude", "package vclaude"),
    ("\"github.com/anthropics/anthropic-sdk-go/option\"",
     "\"github.com/anthropics/anthropic-sdk-go/vertex\""),
    ("\n\n// A unique identifier for the Claude provider\nconst REGION = \"claude\"", ""),
    ("type Endpoint struct \x7b\n\tclient *anthropic.Client\n\x7d",
     "type Endpoint struct \x7b\n\tclient *anthropic.Client\n\tregion string\n\x7d"),
    ("func NewEndpoint(apiKey string) (*Endpoint, error) \x7b",
     "func NewEndpoint(projectId string, region string) (*Endpoint, error) \x7b"),
    ("anthropic.NewClient(option.WithAPIKey(apiKey))",
     "anthropic.NewClient(vertex.WithGoogleAuth(context.Background(), region, projectId))"),
    ("return &Endpoint\x7bclient: client\x7d, nil",
     "return &Endpoint\x7bclient: client, region: region\x7d, nil"),
    ("Model:     anthropic.F(anthropic.ModelClaude_3_Haiku_20240307),",
     "Model:     anthropic.F(\"claude-3-haiku@20240307\"),"),
    ("return \"claude\"", "return \"vclaude\""),
    ("func (ep *Endpoint) Region() string \x7b\n\treturn REGION\n\x7d",
     "func (ep *Endpoint) Region() string \x7b\n\treturn ep.region\n\x7d"),
    ("claude-3-5-sonnet-20240620", "claude-3-5-sonnet@20240620"),
    ("claude-3-opus-20240229", "claude-3-opus@20240229"),
    ("claude-3-sonnet-20240229", "claude-3-sonnet@20240229"),
    ("claude-3-haiku-20240307", "claude-3-haiku@20240307") ]

/-- Embedding of `replace_content`: prepend the banner, then apply the substitutions in
order (each one a Python `str.replace`, i.e. replace-all). -/
def replace_content (subs : List (String × String)) (content : String) : String :=
  subs.foldl (fun c pr => pyReplace c pr.1 pr.2) (banner ++ content)

/-- A filesystem: path → file content. -/
abbrev FS := String → Option String

/-- Write one file. -/
def fsWrite (fs : FS) (path content : String) : FS :=
  fun p => if p = path then some content else fs p

/-- How a `process_files` run ends: the `ValueError` for mismatched list
lengths, `sys.exit(1)` after an `IOError` on some pair, or normal
completion. -/
inductive ProcEnd where
  | valueError
  | ioExit
  | done

/-- The final state of a generator run: how it ended, the filesystem after
it, and the output files written, in order. -/
structure ProcResult where
  ending : ProcEnd
  fs : FS
  written : List String

/-- The per-pair loop of `process_files`: read the source (an unreadable
path models `IOError`, after which the source prints a diagnostic and
exits 1, halting the batch), transform, write the output. -/
def process_loop (subs : List (String × String)) :
    List (String × String) → FS → List String → ProcResult
  | [], fs, w => ⟨.done, fs, w⟩
  | (src, out) :: rest, fs, w =>
      match fs src with
      | Option.none => ⟨.ioExit, fs, w⟩
      | some content =>
          process_loop subs rest (fsWrite fs out (replace_content subs content)) (w ++ [out])

/-- Embedding of `process_files` (identical in both generators, parameterized by the
substitution table): raises `ValueError` before touching any file when the
path lists differ in length, otherwise processes the zipped pairs in
order. -/
def process_files (subs : List (String × String)) (src_files out_files : List String)
    (fs : FS) : ProcResult :=
  if src_files.length ≠ out_files.length then ⟨.valueError, fs, []⟩
  else process_loop subs (src_files.zip out_files) fs []

end Ogem.Generator

namespace Ogem.Proofs

open Ogem Ogem.Scraper Ogem.SDK Ogem.Builder Ogem.Generator

/-- Evaluation helper: the capture `"3.00"` parses to the float `3.0`. -/
lemma parseNum_three : parseNum "3.00".data = 3 := by
  have h1 : takeDigits "3.00".data = ("3".data, ".00".data) := by decide
  have h2 : digitsVal "3".data = 3 := by decide
  have h3 : digitsVal "00".data = 0 := by decide
  simp only [parseNum, h1]
  rw [h2, h3]
  norm_num

/-- Evaluation helper: the capture `"3000000"` parses to the float
`3000000.0`. -/
lemma parseNum_threeMillion : parseNum "3000000".data = 3000000 := by
  have h1 : takeDigits "3000000".data = ("3000000".data, []) := by decide
  have h2 : digitsVal "3000000".data = 3000000 := by decide
  simp only [parseNum, h1]
  rw [h2]
  norm_num

/-- C3, counterexample: on `"3000000 million"` the fourth pattern
`(\d+\.?\d*)\s*million` captures the full literal `3000000`, so
`extract_price` returns `3000000.0`, not the claimed `3.0`. -/
theorem claim_C3_counterexample :
    extract_price "3000000 million" = some 3000000 ∧
    extract_price "3000000 million" ≠ some 3 := by
  have hc : extract_price_capture "3000000 million" = some "3000000".data := by decide
  have he : extract_price "3000000 million" = some 3000000 := by
    show (extract_price_capture "3000000 million").map parseNum = some 3000000
    rw [hc]
    show some (parseNum "3000000".data) = some 3000000
    rw [parseNum_threeMillion]
  refine ⟨he, ?_⟩
  rw [he]
  intro h
  have : (3000000 : ℚ) = 3 := by injection h
  norm_num at this

/-- C3, amended: `extract_price` returns `3.0` on `"$3.00 per 1M"` and
`"3.00/1M"`, returns `3000000.0` (the number written before `million`,
unscaled) on `"3000000 million"`, and returns `None` on every input on
which none of the five recognized patterns matches; it is total and never
raises. -/
theorem claim_C3 :
    extract_price "$3.00 per 1M" = some 3 ∧
    extract_price "3.00/1M" = some 3 ∧
    extract_price "3000000 million" = some 3000000 ∧
    (∀ s : String,
      searchPat pat1 (normalizePrice s) = Option.none →
      searchPat pat2 (normalizePrice s) = Option.none →
      searchPat pat3 (normalizePrice s) = Option.none →
      searchPat pat4 (normalizePrice s) = Option.none →
      pat5 (normalizePrice s) = Option.none →
      extract_price s = Option.none) := by
  refine ⟨?_, ?_, ?_, ?_⟩
  · have hc : extract_price_capture "$3.00 per 1M" = some "3.00".data := by decide
    show (extract_price_capture "$3.00 per 1M").map parseNum = some 3
    rw [hc]
    show some (parseNum "3.00".data) = some 3
    rw [parseNum_three]
  · have hc : extract_price_capture "3.00/1M" = some "3.00".data := by decide
    show (extract_price_capture "3.00/1M").map parseNum = some 3
    rw [hc]
    show some (parseNum "3.00".data) = some 3
    rw [parseNum_three]
  · have hc : extract_price_capture "3000000 million" = some "3000000".data := by decide
    show (extract_price_capture "3000000 million").map parseNum = some 3000000
    rw [hc]
    show some (parseNum "3000000".data) = some 3000000
    rw [parseNum_threeMillion]
  · intro s h1 h2 h3 h4 h5
    simp [extract_price, extract_price_capture, h1, h2, h3, h4, h5]

/-- C3 witness: `"no price here"` matches none of the patterns and indeed
maps to `None`. -/
theorem claim_C3_witness : extract_price "no price here" = Option.none :=
  claim_C3.2.2.2 "no price here" (by decide) (by decide) (by decide) (by decide)
    (by decide)

/-- C1, counterexample: the Anthropic scraper is a requested provider whose
`scrape()` does surface failure — when its page fetch fails it returns the
error dict `{"error": ...}` with no `models` mapping at all (the fallback
waterfall exists only in the OpenAI scraper). -/
theorem claim_C1_counterexample :
    scrape_all ⟨⟨false, .error "x", .error "y"⟩, ⟨Option.none⟩, ⟨Option.none⟩,
        ⟨Option.none⟩⟩ "2025-06-01" ["anthropic"] =
      [("anthropic", .err "Failed to fetch Anthropic pricing page")] ∧
    hasNonEmptyModels (ScrapeOutput.err "Failed to fetch Anthropic pricing page")
      = false :=
  ⟨rfl, rfl⟩

/-- C1, amended: the OpenAI scraper's `scrape()` never surfaces failure —
in every environment (Playwright missing, both real fetches raising or
parsing nothing) it returns a result whose `models` mapping is non-empty,
falling back to the hardcoded table; in particular `scrape_all(["openai"])`
always yields a non-empty `models` mapping for the openai slot.  (The
Anthropic/Google/Azure scrapers do not share this guarantee.) -/
theorem claim_C1 :
    (∀ (env : OpenAIEnv) (now : String),
      hasNonEmptyModels (openai_scrape env now) = true) ∧
    (∀ (env : AggEnv) (now : String), ∃ out,
      scrape_all env now ["openai"] = [("openai", out)] ∧
      hasNonEmptyModels out = true) := by
  have h1 : ∀ (env : OpenAIEnv) (now : String),
      hasNonEmptyModels (openai_scrape env now) = true := by
    intro env now
    obtain ⟨pa, pm, em⟩ := env
    cases pa <;> rcases pm with e1 | (_ | ⟨x1, l1⟩) <;>
        rcases em with e2 | (_ | ⟨x2, l2⟩) <;>
      simp [openai_scrape, openai_methods, scrape_loop, hasNonEmptyModels,
        openai_fallback_models]
  refine ⟨h1, fun env now => ⟨openai_scrape env.openai now, ?_, h1 env.openai now⟩⟩
  simp [scrape_all, scrape_one]

/-- C10: whenever the page fetch succeeds, the Anthropic, Google Cloud and
Azure scrapers return exactly their fixed hardcoded model tables — the
result is the same for every page content, so the fetched page is never
used. -/
theorem claim_C10 :
    (∀ (page now : String),
      anthropic_scrape ⟨some page⟩ now =
        .ok ⟨"anthropic", anthropic_url, now, anthropic_known_models, Option.none⟩) ∧
    (∀ (page now : String),
      google_scrape ⟨some page⟩ now =
        .ok ⟨"google_cloud", google_url, now, google_known_models, Option.none⟩) ∧
    (∀ (page now : String),
      azure_scrape ⟨some page⟩ now =
        .ok ⟨"azure", azure_url, now, azure_known_models, Option.none⟩) :=
  ⟨fun _ _ => rfl, fun _ _ => rfl, fun _ _ => rfl⟩

/-- Helper: a non-200 response always makes `_handle_response` raise. -/
lemma handle_response_ne200 (r : HttpResponse) (h : r.status_code ≠ 200) :
    ∃ e, handle_response r = .error e := by
  unfold handle_response
  rw [if_neg h]
  split_ifs <;> (repeat' split) <;> exact ⟨_, rfl⟩

/-- C2, counterexample: a 403 response whose error body's `type` does not
mention "tenant" raises the generic `APIError`, not the tenant error the
claim promises for every 403. -/
theorem claim_C2_counterexample :
    handle_response ⟨403, some (.dict [("type", .str "forbidden")]), "x"⟩ =
      .error (.apiError (.str "Access denied") (some 403) (some (.str "forbidden"))
        Option.none (.dict [])) ∧
    raisesTenant
      (handle_response ⟨403, some (.dict [("type", .str "forbidden")]), "x"⟩) = false :=
  ⟨rfl, rfl⟩

/-- C2, amended: 401 raises the authentication error; 403 raises the tenant
error when the parsed error body's `type` mentions "tenant"
(case-insensitively) and the generic API error with status 403 otherwise;
422 raises the validation error and 429 the rate-limit error (for error
bodies that parse to a JSON object, so that the handler's own `.get` calls
do not raise); every other non-2xx status raises the generic API error
carrying that status; a 200 response returns the parsed JSON body without
raising. -/
theorem claim_C2 (r : HttpResponse) :
    (r.status_code = 401 →
      handle_response r = .error (.authenticationError (.str "Invalid API key"))) ∧
    (r.status_code = 403 → wellFormedErrBody r = true →
      (tenantMentioned r = true → raisesTenant (handle_response r) = true) ∧
      (tenantMentioned r = false →
        raisesGenericApiWith 403 (handle_response r) = true)) ∧
    (r.status_code = 422 → errBodyIsDict r = true →
      raisesValidation (handle_response r) = true) ∧
    (r.status_code = 429 → errBodyIsDict r = true →
      raisesRateLimit (handle_response r) = true) ∧
    (¬(200 ≤ r.status_code ∧ r.status_code ≤ 299) →
      r.status_code ∉ ([401, 403, 422, 429] : List ℕ) →
      errBodyIsDict r = true →
      raisesGenericApiWith r.status_code (handle_response r) = true) ∧
    (r.status_code = 200 → ∀ b, r.json_body = some b → handle_response r = .ok b) := by
  refine ⟨?_, ?_, ?_, ?_, ?_, ?_⟩
  · intro h
    simp [handle_response, h]
  · intro h hwf
    cases hed : parse_error_response r with
    | dict fields =>
        cases hty : dictGet fields "type" with
        | none =>
            have hten : tenantMentioned r = false := by
              simp [tenantMentioned, hed, hty, containsSub, prefixOfL]
            refine ⟨fun hx => ?_, fun _ => ?_⟩
            · rw [hten] at hx; cases hx
            · simp [handle_response, h, hed, hty, errDataGet, containsSub, prefixOfL,
                raisesGenericApiWith]
        | some v =>
            cases v with
            | str ty =>
                by_cases hb : containsSub "tenant".data (strLower ty).data
                · have hten : tenantMentioned r = true := by
                    simp [tenantMentioned, hed, hty, hb]
                  refine ⟨fun _ => ?_, fun hx => ?_⟩
                  · simp [handle_response, h, hed, hty, errDataGet, hb, raisesTenant]
                  · rw [hten] at hx; cases hx
                · have hten : tenantMentioned r = false := by
                    simp [tenantMentioned, hed, hty, hb]
                  refine ⟨fun hx => ?_, fun _ => ?_⟩
                  · rw [hten] at hx; cases hx
                  · simp [handle_response, h, hed, hty, errDataGet, hb,
                      raisesGenericApiWith]
            | int n => simp [wellFormedErrBody, hed, hty] at hwf
            | float q => simp [wellFormedErrBody, hed, hty] at hwf
            | bool b => simp [wellFormedErrBody, hed, hty] at hwf
            | none => simp [wellFormedErrBody, hed, hty] at hwf
            | list xs => simp [wellFormedErrBody, hed, hty] at hwf
            | dict d2 => simp [wellFormedErrBody, hed, hty] at hwf
    | str s => simp [wellFormedErrBody, hed] at hwf
    | int n => simp [wellFormedErrBody, hed] at hwf
    | float q => simp [wellFormedErrBody, hed] at hwf
    | bool b => simp [wellFormedErrBody, hed] at hwf
    | none => simp [wellFormedErrBody, hed] at hwf
    | list xs => simp [wellFormedErrBody, hed] at hwf
  · intro h hd
    cases hed : parse_error_response r with
    | dict fields => simp [handle_response, h, hed, errDataGet, raisesValidation]
    | str s => simp [errBodyIsDict, hed] at hd
    | int n => simp [errBodyIsDict, hed] at hd
    | float q => simp [errBodyIsDict, hed] at hd
    | bool b => simp [errBodyIsDict, hed] at hd
    | none => simp [errBodyIsDict, hed] at hd
    | list xs => simp [errBodyIsDict, hed] at hd
  · intro h hd
    cases hed : parse_error_response r with
    | dict fields => simp [handle_response, h, hed, errDataGet, raisesRateLimit]
    | str s => simp [errBodyIsDict, hed] at hd
    | int n => simp [errBodyIsDict, hed] at hd
    | float q => simp [errBodyIsDict, hed] at hd
    | bool b => simp [errBodyIsDict, hed] at hd
    | none => simp [errBodyIsDict, hed] at hd
    | list xs => simp [errBodyIsDict, hed] at hd
  · intro h2 hmem hd
    have h200 : r.status_code ≠ 200 := by
      intro hx; exact h2 ⟨by omega, by omega⟩
    simp only [List.mem_cons, List.mem_singleton, not_or] at hmem
    obtain ⟨h401, h403, h422, h429⟩ := hmem
    cases hed : parse_error_response r with
    | dict fields =>
        simp [handle_response, h200, h401, h403, h422, h429, hed, errDataGet,
          raisesGenericApiWith]
    | str s => simp [errBodyIsDict, hed] at hd
    | int n => simp [errBodyIsDict, hed] at hd
    | float q => simp [errBodyIsDict, hed] at hd
    | bool b => simp [errBodyIsDict, hed] at hd
    | none => simp [errBodyIsDict, hed] at hd
    | list xs => simp [errBodyIsDict, hed] at hd
  · intro h b hb
    simp [handle_response, h, hb]

/-- C2 witness: a concrete 401 response raises the authentication error, a
concrete tenant-typed 403 raises the tenant error, and a concrete 500
raises the generic API error with status 500. -/
theorem claim_C2_witness :
    handle_response ⟨401, some (.dict []), ""⟩ =
      .error (.authenticationError (.str "Invalid API key")) ∧
    raisesTenant
      (handle_response ⟨403, some (.dict [("type", .str "tenant_error")]), ""⟩) = true ∧
    raisesGenericApiWith 500 (handle_response ⟨500, some (.dict []), ""⟩) = true := by
  refine ⟨(claim_C2 _).1 rfl, ?_, ?_⟩
  · exact ((claim_C2 ⟨403, some (.dict [("type", .str "tenant_error")]), ""⟩).2.1
      rfl (by decide)).1 (by decide)
  · exact (claim_C2 ⟨500, some (.dict []), ""⟩).2.2.2.2.1 (by decide) (by decide)
      (by decide)

/-- C9: the non-raising branch of the response handler is reachable only at
status exactly 200 — every other status, including successful 2xx codes
such as 201 and 204, raises; 201 and 204 in particular raise the generic
API error carrying that status. -/
theorem claim_C9 (r : HttpResponse) :
    (r.status_code ≠ 200 → (handle_response r).isOk = false) ∧
    ((handle_response r).isOk = true → r.status_code = 200) ∧
    (r.status_code = 201 → errBodyIsDict r = true →
      raisesGenericApiWith 201 (handle_response r) = true) ∧
    (r.status_code = 204 → errBodyIsDict r = true →
      raisesGenericApiWith 204 (handle_response r) = true) := by
  have herr : r.status_code ≠ 200 → (handle_response r).isOk = false := by
    intro h
    obtain ⟨e, he⟩ := handle_response_ne200 r h
    simp [he, Except.isOk, Except.toBool]
  refine ⟨herr, ?_, ?_, ?_⟩
  · intro hok
    by_contra hne
    rw [herr hne] at hok
    cases hok
  · intro h hd
    cases hed : parse_error_response r with
    | dict fields =>
        simp [handle_response, h, hed, errDataGet, raisesGenericApiWith]
    | str s => simp [errBodyIsDict, hed] at hd
    | int n => simp [errBodyIsDict, hed] at hd
    | float q => simp [errBodyIsDict, hed] at hd
    | bool b => simp [errBodyIsDict, hed] at hd
    | none => simp [errBodyIsDict, hed] at hd
    | list xs => simp [errBodyIsDict, hed] at hd
  · intro h hd
    cases hed : parse_error_response r with
    | dict fields =>
        simp [handle_response, h, hed, errDataGet, raisesGenericApiWith]
    | str s => simp [errBodyIsDict, hed] at hd
    | int n => simp [errBodyIsDict, hed] at hd
    | float q => simp [errBodyIsDict, hed] at hd
    | bool b => simp [errBodyIsDict, hed] at hd
    | none => simp [errBodyIsDict, hed] at hd
    | list xs => simp [errBodyIsDict, hed] at hd

/-- C9 witness: a 201 response with a JSON-object body raises the generic
API error carrying 201, and a 204 likewise. -/
theorem claim_C9_witness :
    raisesGenericApiWith 201 (handle_response ⟨201, some (.dict []), ""⟩) = true ∧
    raisesGenericApiWith 204 (handle_response ⟨204, some (.dict []), ""⟩) = true :=
  ⟨(claim_C9 ⟨201, some (.dict []), ""⟩).2.2.1 rfl (by decide),
   (claim_C9 ⟨204, some (.dict []), ""⟩).2.2.2 rfl (by decide)⟩

/-- C7: `is_retryable_error` returns `True` exactly for rate-limit errors,
API errors whose status code is present and at least 500, timeout errors
and connection errors; every other exception yields `False`. -/
theorem claim_C7 (e : Exc) :
    is_retryable_error e = true ↔
      (isinstanceRateLimit e = true ∨
       (isinstanceAPIError e = true ∧ ∃ c, statusCodeOf e = some c ∧ 500 ≤ c) ∨
       isinstanceTimeout e = true ∨
       isinstanceConnection e = true) := by
  cases e <;>
    simp [is_retryable_error, isinstanceRateLimit, isinstanceAPIError,
      isinstanceTimeout, isinstanceConnection, statusCodeOf]
  case apiError m sc ty cd dts =>
    cases sc with
    | none => simp
    | some c => simp [decide_eq_true_iff]

/-- C7 witness: a provider error with no status code is not retryable; a
rate-limit error is. -/
theorem claim_C7_witness :
    is_retryable_error (.rateLimitError (.str "slow down") Option.none Option.none)
      = true :=
  (claim_C7 _).mpr (Or.inl rfl)

/-- Helper: a list is always a prefix of itself followed by anything. -/
lemma prefixOfL_append (a b : List Char) : prefixOfL a (a ++ b) = true := by
  induction a with
  | nil => rfl
  | cons c t ih => simp [prefixOfL, ih]

/-- Helper: a `"data: "`-prefixed line passes the filter's prefix test. -/
lemma pyStartsWith_data (p : String) :
    pyStartsWith ("data: " ++ p) "data: " = true := by
  simp only [pyStartsWith, String.data_append]
  exact prefixOfL_append _ _

/-- Helper: dropping the six prefix characters of a `"data: "`-prefixed
line recovers the payload. -/
lemma pyDrop_data (p : String) : pyDrop ("data: " ++ p) 6 = p := by
  simp only [pyDrop, String.data_append]
  have h6 : ("data: ".data).length = 6 := by decide
  rw [← h6, List.drop_left]

/-- Helper: one filter step on a `"data: "`-prefixed line. -/
lemma stream_data_lines_cons (p : String) (ls : List String) :
    stream_data_lines (("data: " ++ p) :: ls) =
      if pyStrip p == "[DONE]" then [] else p :: stream_data_lines ls := by
  simp [stream_data_lines, pyStartsWith_data, pyDrop_data]

/-- C5: a streaming body of two `data: <json>` lines followed by the
`data: [DONE]` sentinel yields exactly the two parsed chunks and terminates
at the sentinel without yielding or parsing it; a line lacking the
`"data: "` prefix contributes nothing. -/
theorem claim_C5 :
    (∀ (loads : String → Except String PyVal) (p1 p2 : String) (j1 j2 : PyVal),
      pyStrip p1 ≠ "[DONE]" → pyStrip p2 ≠ "[DONE]" →
      loads p1 = .ok j1 → loads p2 = .ok j2 →
      chat_stream loads ["data: " ++ p1, "data: " ++ p2, "data: [DONE]"] =
        ([j1, j2], Option.none)) ∧
    (∀ (loads : String → Except String PyVal) (l : String) (rest : List String),
      pyStartsWith l "data: " = false →
      chat_stream loads (l :: rest) = chat_stream loads rest) := by
  constructor
  · intro loads p1 p2 j1 j2 h1 h2 hl1 hl2
    have hb1 : (pyStrip p1 == "[DONE]") = false := beq_eq_false_iff_ne.mpr h1
    have hb2 : (pyStrip p2 == "[DONE]") = false := beq_eq_false_iff_ne.mpr h2
    have hdone : stream_data_lines ["data: [DONE]"] = [] := by decide
    rw [chat_stream, stream_data_lines_cons, stream_data_lines_cons, hdone]
    simp [hb1, hb2, create_stream_consume, hl1, hl2]
  · intro loads l rest h
    simp [chat_stream, stream_data_lines, h]

/-- C5 witness: two concrete JSON payloads produce exactly two chunks
before the sentinel, under the identity parsing oracle. -/
theorem claim_C5_witness :
    chat_stream (fun s => .ok (.str s))
        ["data: \x7b\"choices\":[1]\x7d", "data: \x7b\"choices\":[2]\x7d",
         "data: [DONE]"] =
      ([.str "\x7b\"choices\":[1]\x7d", .str "\x7b\"choices\":[2]\x7d"],
        Option.none) :=
  claim_C5.1 (fun s => .ok (.str s)) "\x7b\"choices\":[1]\x7d"
    "\x7b\"choices\":[2]\x7d" _ _ (by decide) (by decide) rfl rfl

/-- C8: a chat-completions create with an empty model or empty messages, or
an embeddings create with an empty model or falsy input, raises the local
validation error before the transport boundary is ever reached — the
outcome carries no request descriptor. -/
theorem claim_C8 :
    (∀ (model : String) (messages : List PyVal) (a : ChatCreateArgs),
      model = "" ∨ messages = [] →
      raisedLocalValidation (chat_completions_create model messages a) = true) ∧
    (∀ (model : String) (input : PyVal) (a : EmbeddingCreateArgs),
      model = "" ∨ pyTruthy input = false →
      raisedLocalValidation (embeddings_create model input a) = true) := by
  constructor
  · intro model messages a h
    rcases h with h | h
    · subst h
      simp [chat_completions_create, raisedLocalValidation]
    · subst h
      by_cases hm : model = ""
      · subst hm
        simp [chat_completions_create, raisedLocalValidation]
      · simp [chat_completions_create, raisedLocalValidation, hm]
  · intro model input a h
    rcases h with h | h
    · subst h
      simp [embeddings_create, raisedLocalValidation]
    · by_cases hm : model = ""
      · subst hm
        simp [embeddings_create, raisedLocalValidation]
      · simp [embeddings_create, raisedLocalValidation, hm, h]

/-- C8 witness: an empty model and an empty input each raise locally at a
concrete call. -/
theorem claim_C8_witness :
    raisedLocalValidation (chat_completions_create "" [.str "hi"] {}) = true ∧
    raisedLocalValidation (embeddings_create "text-embedding-3-small" (.str "") {})
      = true :=
  ⟨claim_C8.1 "" [.str "hi"] {} (Or.inl rfl),
   claim_C8.2 "text-embedding-3-small" (.str "") {} (Or.inr rfl)⟩

/-- C4: the fluent chain `ChatCompletionRequest("m", msgs).max_tokens(10)
.temperature(0.5).build()` produces a dict equal to
`{"model": "m", "messages": msgs, "max_tokens": 10, "temperature": 0.5}`,
and because `build` copies, any further setter call on the builder leaves
the previously built dict unchanged. -/
theorem claim_C4 (msgs : PyVal) :
    (let r1 := ChatCompletionRequest.init "m" msgs emptyHeap
     let r2 := r1.1.max_tokens 10 r1.2
     let r3 := r2.1.temperature 0.5 r2.2
     let rb := r3.1.build r3.2
     rb.2.mem rb.1 =
        [("model", .str "m"), ("messages", msgs),
         ("max_tokens", .int 10), ("temperature", .float 0.5)] ∧
     ∀ (key : String) (v : PyVal),
       ((r3.1.setField key v rb.2).2).mem rb.1 = rb.2.mem rb.1) :=
  ⟨rfl, fun _ _ => rfl⟩

/-- Helper: writing one file never makes another path unreadable. -/
lemma fsWrite_isSome {fs : FS} {o c s : String} (h : (fs s).isSome) :
    ((fsWrite fs o c) s).isSome := by
  by_cases hs : s = o <;> simp [fsWrite, hs, h]

/-- Helper: when every source of the remaining pairs is readable, the
generator loop completes and writes exactly the output of each pair, in
order. -/
lemma process_loop_done (subs : List (String × String)) :
    ∀ (pairs : List (String × String)) (fs : FS) (w : List String),
      (∀ p ∈ pairs, (fs p.1).isSome) →
      (process_loop subs pairs fs w).ending = .done ∧
      (process_loop subs pairs fs w).written = w ++ pairs.map Prod.snd := by
  intro pairs
  induction pairs with
  | nil => intro fs w _; simp [process_loop]
  | cons pr rest ih =>
      intro fs w h
      obtain ⟨src, out⟩ := pr
      have hsrc : (fs src).isSome := h (src, out) (List.mem_cons_self _ _)
      obtain ⟨content, hc⟩ := Option.isSome_iff_exists.mp hsrc
      have hrest : ∀ p ∈ rest,
          ((fsWrite fs out (replace_content subs content)) p.1).isSome :=
        fun p hp => fsWrite_isSome (h p (List.mem_cons_of_mem _ hp))
      have hih := ih (fsWrite fs out (replace_content subs content)) (w ++ [out]) hrest
      simp only [process_loop, hc]
      refine ⟨hih.1, ?_⟩
      rw [hih.2]
      simp

/-- C6: for path lists of unequal length `process_files` (in both the
Vertex and the VClaude generator) raises the argument-count mismatch
`ValueError` with the filesystem untouched and nothing written; for lists
of equal length with readable sources it completes, writing exactly one
output per pair. -/
theorem claim_C6 :
    (∀ (srcs outs : List String) (fs : FS), srcs.length ≠ outs.length →
      process_files vertex_subs srcs outs fs = ⟨.valueError, fs, []⟩ ∧
      process_files vclaude_subs srcs outs fs = ⟨.valueError, fs, []⟩) ∧
    (∀ (srcs outs : List String) (fs : FS), srcs.length = outs.length →
      (∀ s ∈ srcs, (fs s).isSome) →
      ((process_files vertex_subs srcs outs fs).ending = .done ∧
       (process_files vertex_subs srcs outs fs).written = outs) ∧
      ((process_files vclaude_subs srcs outs fs).ending = .done ∧
       (process_files vclaude_subs srcs outs fs).written = outs)) := by
  constructor
  · intro srcs outs fs h
    constructor <;> simp [process_files, h]
  · intro srcs outs fs hlen hread
    have hzip : ∀ p ∈ srcs.zip outs, (fs p.1).isSome := by
      intro p hp
      obtain ⟨a, b⟩ := p
      exact hread a (List.of_mem_zip hp).1
    have hmap : (srcs.zip outs).map Prod.snd = outs :=
      List.map_snd_zip srcs outs (le_of_eq hlen.symm)
    have key : ∀ subs : List (String × String),
        (process_files subs srcs outs fs).ending = .done ∧
        (process_files subs srcs outs fs).written = outs := by
      intro subs
      have hd := process_loop_done subs (srcs.zip outs) fs [] hzip
      refine ⟨?_, ?_⟩ <;> simp [process_files, hlen, hd.1, hd.2, hmap]
    exact ⟨key vertex_subs, key vclaude_subs⟩

/-- C6 witness: a concrete mismatched call raises with the filesystem
untouched; a concrete matched call writes its single output. -/
theorem claim_C6_witness :
    process_files vertex_subs ["a"] ["b", "c"] (fun _ => Option.none) =
      ⟨.valueError, (fun _ => Option.none), []⟩ ∧
    (process_files vclaude_subs ["a"] ["b"] (fun _ => some "x")).written = ["b"] :=
  ⟨(claim_C6.1 ["a"] ["b", "c"] (fun _ => Option.none) (by decide)).1,
   ((claim_C6.2 ["a"] ["b"] (fun _ => some "x") rfl (fun _ _ => rfl)).2).2⟩

end Ogem.Proofs
